import Mathlib

/-!
Shallow embedding of the VoIP onboarding firewall core:
the trust-record model (`src/app/models/trusted_ip.py`), the firewall
service (`src/app/services/firewall.py`), the cleanup scheduler job
(`src/app/scheduler.py`) and the admin account deletion endpoint
(`src/app/routers/admin.py`).

Times are naturals counted in seconds.  The SQLAlchemy session is
embedded as a list of rows; `query(...).first()` is `List.find?`,
`query(...).filter(...).delete()` removes every matching row, and an
in-place mutation of the row returned by `.first()` updates the first
matching element of the list.  Python exceptions become `Except`;
the SSH channel (`FirewallService._run_command`) is a parameter
`remote : String → Except FirewallError String` mapping the command
string to either the stdout text or a raised `FirewallError`.
-/

namespace VoipFw

/-- `FirewallError` from `src/app/services/firewall.py`: the single
exception type used for SSH/firewall failures, carrying a message. -/
structure FirewallError where
  msg : String
deriving DecidableEq, Repr

/-- A row of the `trusted_ips` table (`src/app/models/trusted_ip.py`):
`id`, unique `ip_address`, optional `user_id`, `created_at`, `expires_at`. -/
structure TrustedIP where
  id : Nat
  ip_address : String
  user_id : Option Nat
  created_at : Nat
  expires_at : Nat
deriving DecidableEq, Repr

/-- `IP_EXPIRATION_HOURS = 2` from `src/app/services/firewall.py`. -/
def IP_EXPIRATION_HOURS : Nat := 2

/-- `TrustedIP.calculate_expiry(hours)`: now plus the given number of
hours (in seconds). -/
def calculate_expiry (hours : Nat) (now : Nat) : Nat :=
  now + hours * 3600

/-- `leadMatch sub l`: `l` starts with `sub` (character lists). -/
def leadMatch : List Char → List Char → Bool
  | [], _ => true
  | _ :: _, [] => false
  | c :: cs, d :: ds => c == d && leadMatch cs ds

/-- `hasSub sub l`: `sub` occurs contiguously inside `l`. -/
def hasSub (sub : List Char) : List Char → Bool
  | [] => sub.isEmpty
  | d :: ds => leadMatch sub (d :: ds) || hasSub sub ds

/-- Python's `sub in s` substring test, for a nonempty `sub`. -/
def containsSubstr (s sub : String) : Bool :=
  hasSub sub.toList s.toList

/-- Python whitespace, as stripped by `str.strip()`. -/
def isSpaceChar (c : Char) : Bool :=
  c == ' ' || c == '\t' || c == '\n' || c == '\r' || c == '\x0b' || c == '\x0c'

/-- Drop leading Python whitespace from a character list. -/
def dropLeadSpace : List Char → List Char
  | [] => []
  | c :: cs => if isSpaceChar c then dropLeadSpace cs else c :: cs

/-- Python's `s.strip()`: drop leading and trailing whitespace. -/
def stripStr (s : String) : String :=
  ⟨(dropLeadSpace (dropLeadSpace s.toList.reverse).reverse)⟩

/-- Python's `s.split(sep)` for a single-character separator: empty
pieces are kept, and splitting the empty string yields `[""]`. -/
def splitOnChar (sep : Char) : List Char → List (List Char)
  | [] => [[]]
  | c :: cs =>
      if c == sep then [] :: splitOnChar sep cs
      else
        match splitOnChar sep cs with
        | [] => [[c]]
        | l :: ls => (c :: l) :: ls

/-- Update the first element satisfying `p` (the SQLAlchemy pattern of
mutating the row returned by `.first()` and committing). -/
def updateFirst (p : α → Bool) (f : α → α) : List α → List α
  | [] => []
  | x :: xs => if p x then f x :: xs else x :: updateFirst p f xs

/-- `FirewallService._save_trusted_ip`: if a row with this address
exists, extend its `expires_at` to now + TTL (and overwrite `user_id`);
otherwise insert a fresh row with that expiry. -/
def save_trusted_ip (db : List TrustedIP) (ip : String) (uid : Option Nat)
    (now : Nat) (newId : Nat) : List TrustedIP :=
  match db.find? (fun r => r.ip_address == ip) with
  | some _ =>
      updateFirst (fun r => r.ip_address == ip)
        (fun r => { r with
                    expires_at := calculate_expiry IP_EXPIRATION_HOURS now
                    user_id := uid }) db
  | none =>
      db ++ [{ id := newId
               ip_address := ip
               user_id := uid
               created_at := now
               expires_at := calculate_expiry IP_EXPIRATION_HOURS now }]

/-- The command string `trust_ip` interpolates its argument into. -/
def trustCommand (ip : String) : String :=
  "fwconsole firewall trust " ++ ip

/-- The command string `untrust_ip` interpolates its argument into. -/
def untrustCommand (ip : String) : String :=
  "fwconsole firewall untrust " ++ ip

/-- `FirewallService.trust_ip`: run the trust command over SSH; success
iff stdout contains `"Success"`; only then save/extend the local row.
Returns the (possibly raised) boolean result together with the
resulting table state. -/
def trust_ip (remote : String → Except FirewallError String) (ip : String)
    (db : List TrustedIP) (uid : Option Nat) (now : Nat) (newId : Nat) :
    Except FirewallError Bool × List TrustedIP :=
  match remote (trustCommand ip) with
  | .error e => (.error e, db)
  | .ok out =>
      let success := containsSubstr out "Success"
      if success then (.ok true, save_trusted_ip db ip uid now newId)
      else (.ok false, db)

/-- `FirewallService.untrust_ip`: run the untrust command; success iff
stdout contains `"Success"`; only if successful *and* a session was
provided, delete the matching rows. -/
def untrust_ip (remote : String → Except FirewallError String) (ip : String)
    (db : Option (List TrustedIP)) :
    Except FirewallError Bool × Option (List TrustedIP) :=
  match remote (untrustCommand ip) with
  | .error e => (.error e, db)
  | .ok out =>
      let success := containsSubstr out "Success"
      if success then
        match db with
        | some rows =>
            (.ok true, some (rows.filter (fun r => !(r.ip_address == ip))))
        | none => (.ok true, none)
      else (.ok false, db)

/-- `FirewallService.cleanup_expired_ips`: select the rows with
`expires_at < now` (strict, `datetime.utcnow()` taken at the start of
the run), attempt the remote untrust command for each — an address is
appended to `removed_ips` whenever its SSH command did not raise, a
raising command is caught and only logged — then delete every expired
row and return the removed addresses with the new table state. -/
def cleanup_expired_ips (remote : String → Except FirewallError String)
    (db : List TrustedIP) (now : Nat) : List String × List TrustedIP :=
  let expired := db.filter (fun r => r.expires_at < now)
  let removed_ips := expired.filterMap (fun r =>
    match remote (untrustCommand r.ip_address) with
    | .ok _ => some r.ip_address
    | .error _ => none)
  let db₂ := db.filter (fun r => !(r.expires_at < now))
  (removed_ips, db₂)

/-- `FirewallService.list_trusted`: run the listing command, drop the
header line, strip each remaining line and keep the nonempty ones; any
SSH failure is rethrown as a `FirewallError`. -/
def list_trusted (remote : String → Except FirewallError String) :
    Except FirewallError (List String) :=
  match remote "fwconsole firewall list trusted" with
  | .error e => .error { msg := "Failed to list trusted IPs: " ++ e.msg }
  | .ok out =>
      let lines := splitOnChar '\n' (stripStr out).toList
      .ok ((lines.drop 1).filterMap (fun l =>
        let t := stripStr ⟨l⟩
        if t == "" then none else some t))

/-- `FirewallService.is_ip_trusted`: `True` iff the live listing
contains the address itself or the address suffixed with `"/32"`;
any exception from the listing yields `False`. -/
def is_ip_trusted (remote : String → Except FirewallError String)
    (ip : String) : Bool :=
  match list_trusted remote with
  | .error _ => false
  | .ok trusted => trusted.contains ip || trusted.contains (ip ++ "/32")

/-- A row of the `ssh_accounts` table (`src/app/models/ssh_account.py`):
the per-tenant enforcement host and its credentials. -/
structure SSHAccount where
  id : Nat
  name : String
  host : String
  ssh_user : String
  ssh_key_path : String
deriving DecidableEq, Repr

/-- Modelled from the spec: the caller record (`app.models.user.User`,
whose source file is not present).  Per §3, a caller carries a weak
reference to its account (`account_id`), followed by the Tenant
Registry and by `routers/admin.py`'s `User.account_id` filter. -/
structure User where
  id : Nat
  account_id : Option Nat
deriving DecidableEq, Repr

/-- The `user.ssh_account` relationship: resolve the caller's optional
`account_id` against the `ssh_accounts` table. -/
def userSshAccount (accounts : List SSHAccount) (u : User) : Option SSHAccount :=
  u.account_id.bind (fun aid => accounts.find? (fun a => a.id == aid))

/-- One iteration of the loop body of
`scheduler.cleanup_expired_ips_job`: look up the row's user and that
user's SSH account; if both resolve, run the untrust command over that
account's channel and report the address on success; any exception and
any failed lookup leaves the address unreported.  The remote channel is
a parameter from account and command to outcome. -/
def jobAttempt (remote : SSHAccount → String → Except FirewallError String)
    (users : List User) (accounts : List SSHAccount) (r : TrustedIP) :
    Option String :=
  match r.user_id with
  | none => none
  | some uid =>
      match users.find? (fun u => u.id == uid) with
      | none => none
      | some u =>
          match userSshAccount accounts u with
          | none => none
          | some acct =>
              match remote acct (untrustCommand r.ip_address) with
              | .ok _ => some r.ip_address
              | .error _ => none

/-- `scheduler.cleanup_expired_ips_job`: select rows with
`expires_at < now`; if none, return with the table unchanged; otherwise
attempt the per-row untrust (each row's failure caught independently),
then delete every expired row.  The job catches every exception at its
boundary, so it is a total function returning the reported addresses
and the new table state. -/
def cleanup_expired_ips_job
    (remote : SSHAccount → String → Except FirewallError String)
    (users : List User) (accounts : List SSHAccount)
    (db : List TrustedIP) (now : Nat) : List String × List TrustedIP :=
  let expired := db.filter (fun r => r.expires_at < now)
  if expired.isEmpty then ([], db)
  else
    let removed_ips := expired.filterMap (jobAttempt remote users accounts)
    let db₂ := db.filter (fun r => !(r.expires_at < now))
    (removed_ips, db₂)

/-- An `HTTPException` raised by a router handler: status code and
detail message. -/
structure HTTPError where
  status_code : Nat
  detail : String
deriving DecidableEq, Repr

/-- `routers/admin.py:delete_account`: after the admin-credential
check, look the account up (404 when absent), refuse with a 400 while
any user row references it, and only otherwise delete it.  The second
component is the resulting `ssh_accounts` table; an `HTTPException` is
raised before any mutation, so on error the table is unchanged. -/
def delete_account (authOk : Bool) (users : List User)
    (accounts : List SSHAccount) (account_id : Nat) :
    Except HTTPError String × List SSHAccount :=
  if !authOk then
    (.error { status_code := 401, detail := "Invalid admin credentials" },
     accounts)
  else
    match accounts.find? (fun a => a.id == account_id) with
    | none =>
        (.error { status_code := 404, detail := "Account not found" },
         accounts)
    | some account =>
        let users_count :=
          (users.filter (fun u => u.account_id == some account_id)).length
        if users_count > 0 then
          (.error { status_code := 400,
                    detail := "Cannot delete: user(s) are using this account" },
           accounts)
        else
          (.ok ("Account deleted: " ++ account.name),
           accounts.filter (fun a => !(a.id == account.id)))

/-- Modelled from the spec: the strict numeric address grammar of §6/§9
(`strict numeric/CIDR grammar`), against which an address would have to
be validated before interpolation; the source contains no validator.
An address is four dot-separated decimal octets, each ≤ 255. -/
def strictAddressSyntax (s : String) : Bool :=
  let parts := splitOnChar '.' s.toList
  parts.length == 4 &&
    parts.all (fun p =>
      !p.isEmpty && p.all Char.isDigit &&
        p.foldl (fun n c => n * 10 + (c.toNat - 48)) 0 ≤ 255)

/-- A channel that records the command it was given by raising it:
used to observe exactly which command string a service call sends. -/
def recordingChannel : String → Except FirewallError String :=
  fun cmd => .error { msg := cmd }

/-! ### Helper lemmas -/

theorem updateFirst_cons_pos (p : α → Bool) (f : α → α) (x : α)
    (xs : List α) (hx : p x = true) :
    updateFirst p f (x :: xs) = f x :: xs := by
  simp [updateFirst, hx]

theorem updateFirst_cons_neg (p : α → Bool) (f : α → α) (x : α)
    (xs : List α) (hx : p x = false) :
    updateFirst p f (x :: xs) = x :: updateFirst p f xs := by
  simp [updateFirst, hx]

theorem updateFirst_append_last (p : α → Bool) (f : α → α) (l : List α)
    (r : α) (hl : ∀ x ∈ l, p x = false) (hr : p r = true) :
    updateFirst p f (l ++ [r]) = l ++ [f r] := by
  induction l with
  | nil =>
      simpa using updateFirst_cons_pos p f r [] hr
  | cons x xs ih =>
      have hx : p x = false := hl x (by simp)
      have hxs : ∀ y ∈ xs, p y = false := fun y hy => hl y (by simp [hy])
      simp only [List.cons_append]
      rw [updateFirst_cons_neg p f x _ hx, ih hxs]

theorem mem_updateFirst (p : α → Bool) (f : α → α) (l : List α)
    (x : α) (hx : x ∈ updateFirst p f l) : x ∈ l ∨ ∃ y ∈ l, x = f y := by
  induction l with
  | nil => simp [updateFirst] at hx
  | cons a as ih =>
      by_cases ha : p a = true
      · rw [updateFirst_cons_pos p f a as ha] at hx
        rcases List.mem_cons.mp hx with h | h
        · exact Or.inr ⟨a, List.mem_cons_self a as, h⟩
        · exact Or.inl (List.mem_cons_of_mem a h)
      · rw [updateFirst_cons_neg p f a as (Bool.of_not_eq_true ha)] at hx
        rcases List.mem_cons.mp hx with h | h
        · exact Or.inl (h ▸ List.mem_cons_self a as)
        · rcases ih h with h₂ | ⟨y, hy, hxy⟩
          · exact Or.inl (List.mem_cons_of_mem a h₂)
          · exact Or.inr ⟨y, List.mem_cons_of_mem a hy, hxy⟩

theorem save_trusted_ip_not_found (db : List TrustedIP) (ip : String)
    (uid : Option Nat) (now newId : Nat)
    (h : db.find? (fun r => r.ip_address == ip) = none) :
    save_trusted_ip db ip uid now newId =
      db ++ [{ id := newId, ip_address := ip, user_id := uid,
               created_at := now,
               expires_at := calculate_expiry IP_EXPIRATION_HOURS now }] := by
  simp [save_trusted_ip, h]

/-! ### C1 -/

/-- C1, as stated, is false: with a remote channel whose trust command
runs but does not report success (stdout lacks the `"Success"` marker),
`trust_ip` returns `False` without raising any error (no local row is
created, but no error is raised either, contradicting the claim's
"raises the corresponding error"). -/
theorem trust_ip_remote_rejected_no_raise_cex :
    trust_ip (fun _ => .ok "firewall rule not applied") "10.0.0.5"
        [] none 0 1 = (.ok false, []) ∧
      containsSubstr "firewall rule not applied" "Success" = false := by
  constructor <;> rfl

/-- C1 (amended): if the remote trust command does not report success,
`trust_ip` does not touch the store: when the command runs but its
output lacks the success marker, `trust_ip` returns `False` with the
table unchanged (it does not raise); when the channel itself fails,
`trust_ip` raises that `FirewallError` with the table unchanged.  In
no failure case is a row for the address created or extended. -/
theorem trust_ip_failure_leaves_store (remote : String → Except FirewallError String)
    (ip : String) (db : List TrustedIP) (uid : Option Nat) (now newId : Nat) :
    (∀ out, remote (trustCommand ip) = .ok out →
        containsSubstr out "Success" = false →
        trust_ip remote ip db uid now newId = (.ok false, db)) ∧
      (∀ e, remote (trustCommand ip) = .error e →
        trust_ip remote ip db uid now newId = (.error e, db)) := by
  constructor
  · intro out hout hns
    simp [trust_ip, hout, hns]
  · intro e he
    simp [trust_ip, he]

/-- Witness for `trust_ip_failure_leaves_store` at a concrete
rejecting channel and a concrete erroring channel. -/
theorem trust_ip_failure_leaves_store_witness :
    trust_ip (fun _ => .ok "nothing to do") "192.168.1.9"
        [] (some 4) 50 1 = (.ok false, []) ∧
      trust_ip (fun _ => .error { msg := "SSH error: unreachable" })
        "192.168.1.9" [] (some 4) 50 1 =
        (.error { msg := "SSH error: unreachable" }, []) :=
  ⟨(trust_ip_failure_leaves_store _ _ _ _ _ _).1 "nothing to do" rfl (by decide),
   (trust_ip_failure_leaves_store _ _ _ _ _ _).2
     { msg := "SSH error: unreachable" } rfl⟩

/-! ### C2 -/

/-- C2: trusting the same address twice, both remote calls reporting
success, yields exactly one row for that address, whose `expires_at`
is the time of the second call plus the configured TTL of 2 hours. -/
theorem trust_twice_extends_single_row
    (remote₁ remote₂ : String → Except FirewallError String)
    (A : String) (db : List TrustedIP) (uid₁ uid₂ : Option Nat)
    (t₁ t₂ n₁ n₂ : Nat) (out₁ out₂ : String)
    (hA : ∀ r ∈ db, (r.ip_address == A) = false)
    (h₁ : remote₁ (trustCommand A) = .ok out₁)
    (hs₁ : containsSubstr out₁ "Success" = true)
    (h₂ : remote₂ (trustCommand A) = .ok out₂)
    (hs₂ : containsSubstr out₂ "Success" = true)
    (hle : t₁ ≤ t₂) (hwin : t₂ ≤ t₁ + IP_EXPIRATION_HOURS * 3600) :
    (((trust_ip remote₂ A (trust_ip remote₁ A db uid₁ t₁ n₁).2 uid₂ t₂ n₂).2.filter
        (fun r => r.ip_address == A)).length = 1) ∧
      ∀ r ∈ (trust_ip remote₂ A (trust_ip remote₁ A db uid₁ t₁ n₁).2 uid₂ t₂ n₂).2,
        r.ip_address = A → r.expires_at = t₂ + IP_EXPIRATION_HOURS * 3600 := by
  have hfind : db.find? (fun r => r.ip_address == A) = none :=
    List.find?_eq_none.mpr (fun r hr => by simp [hA r hr])
  have hdb₁ : (trust_ip remote₁ A db uid₁ t₁ n₁).2 =
      db ++ [{ id := n₁, ip_address := A, user_id := uid₁,
               created_at := t₁,
               expires_at := calculate_expiry IP_EXPIRATION_HOURS t₁ }] := by
    simp [trust_ip, h₁, hs₁, save_trusted_ip_not_found db A uid₁ t₁ n₁ hfind]
  set fresh : TrustedIP :=
    { id := n₁, ip_address := A, user_id := uid₁, created_at := t₁,
      expires_at := calculate_expiry IP_EXPIRATION_HOURS t₁ } with hfresh
  have hAfresh : (fresh.ip_address == A) = true := beq_self_eq_true A
  have hfind₂ : (db ++ [fresh]).find? (fun r => r.ip_address == A) = some fresh := by
    rw [List.find?_append, hfind]
    simp [List.find?, hAfresh]
  set updated : TrustedIP :=
    { fresh with expires_at := calculate_expiry IP_EXPIRATION_HOURS t₂,
                 user_id := uid₂ } with hupd
  have hdb₂ : (trust_ip remote₂ A (trust_ip remote₁ A db uid₁ t₁ n₁).2 uid₂ t₂ n₂).2 =
      db ++ [updated] := by
    rw [hdb₁]
    simp only [trust_ip, h₂, hs₂, if_pos, save_trusted_ip, hfind₂]
    exact updateFirst_append_last _ _ db fresh hA hAfresh
  constructor
  · rw [hdb₂, List.filter_append]
    have h0 : db.filter (fun r => r.ip_address == A) = [] :=
      List.filter_eq_nil_iff.mpr (fun r hr => by simp [hA r hr])
    have h1 : (updated.ip_address == A) = true := beq_self_eq_true A
    simp [h0, List.filter, h1]
  · intro r hr hrA
    rw [hdb₂] at hr
    rcases List.mem_append.mp hr with h | h
    · exact absurd hrA (beq_eq_false_iff_ne.mp (hA r h))
    · have : r = updated := by simpa using h
      subst this
      rfl

/-- Witness for `trust_twice_extends_single_row`: `10.0.0.5` trusted
at `t = 0` and again at `t = 1800`, both calls answered `"Success"`. -/
theorem trust_twice_extends_single_row_witness :
    (((trust_ip (fun _ => .ok "Success") "10.0.0.5"
        (trust_ip (fun _ => .ok "Success") "10.0.0.5" [] (some 1) 0 1).2
        (some 1) 1800 2).2.filter
          (fun r => r.ip_address == "10.0.0.5")).length = 1) ∧
      ∀ r ∈ (trust_ip (fun _ => .ok "Success") "10.0.0.5"
          (trust_ip (fun _ => .ok "Success") "10.0.0.5" [] (some 1) 0 1).2
          (some 1) 1800 2).2,
        r.ip_address = "10.0.0.5" →
          r.expires_at = 1800 + IP_EXPIRATION_HOURS * 3600 :=
  trust_twice_extends_single_row (fun _ => .ok "Success")
    (fun _ => .ok "Success") "10.0.0.5" [] (some 1) (some 1) 0 1800 1 2
    "Success" "Success" (by simp) rfl (by decide) rfl (by decide)
    (by decide) (by decide)

/-! ### C3 -/

/-- C3, as stated, is false: the sweep filters with a strict
`expires_at < now`, so a row whose `expires_at` equals the run time
`T = 100` (hence `expires_at ≤ T`) is *not* deleted, by either the
service sweep or the scheduler job. -/
theorem cleanup_keeps_boundary_row_cex :
    (({ id := 1, ip_address := "10.0.0.5", user_id := none,
        created_at := 0, expires_at := 100 } : TrustedIP).expires_at ≤ 100) ∧
      (cleanup_expired_ips (fun _ => .ok "Success")
          [{ id := 1, ip_address := "10.0.0.5", user_id := none,
             created_at := 0, expires_at := 100 }] 100).2 =
        [{ id := 1, ip_address := "10.0.0.5", user_id := none,
           created_at := 0, expires_at := 100 }] ∧
      (cleanup_expired_ips_job (fun _ _ => .ok "Success") [] []
          [{ id := 1, ip_address := "10.0.0.5", user_id := none,
             created_at := 0, expires_at := 100 }] 100).2 =
        [{ id := 1, ip_address := "10.0.0.5", user_id := none,
           created_at := 0, expires_at := 100 }] :=
  ⟨by decide, rfl, rfl⟩

/-- C3 (amended): a sweep run at time `T` — whether the service's
`cleanup_expired_ips` or the scheduler's `cleanup_expired_ips_job` —
deletes exactly the rows with `expires_at` strictly below `T`, and
leaves every row with `expires_at ≥ T` (boundary included) unchanged,
for every store state and every remote channel. -/
theorem cleanup_run_deletes_exactly_strict
    (remote : String → Except FirewallError String)
    (jremote : SSHAccount → String → Except FirewallError String)
    (users : List User) (accounts : List SSHAccount)
    (db : List TrustedIP) (now : Nat) :
    (cleanup_expired_ips remote db now).2 =
        db.filter (fun r => decide (now ≤ r.expires_at)) ∧
      (cleanup_expired_ips_job jremote users accounts db now).2 =
        db.filter (fun r => decide (now ≤ r.expires_at)) := by
  have hfun : (fun r : TrustedIP => !(decide (r.expires_at < now))) =
      (fun r : TrustedIP => decide (now ≤ r.expires_at)) := by
    funext r
    rw [← decide_not]
    exact decide_eq_decide.mpr Nat.not_lt
  constructor
  · simp only [cleanup_expired_ips]
    rw [hfun]
  · by_cases h : (db.filter (fun r => r.expires_at < now)).isEmpty = true
    · have hnil : db.filter (fun r => decide (r.expires_at < now)) = [] :=
        List.isEmpty_iff.mp h
      have hall : ∀ r ∈ db, ¬ (decide (r.expires_at < now) = true) :=
        List.filter_eq_nil_iff.mp hnil
      have hself : db.filter (fun r => decide (now ≤ r.expires_at)) = db :=
        List.filter_eq_self.mpr (fun r hr => by
          have := hall r hr
          simp only [decide_eq_true_eq] at this ⊢
          exact Nat.le_of_not_lt this)
      simp [cleanup_expired_ips_job, h, hself]

    · simp only [cleanup_expired_ips_job, h, if_false]
      rw [hfun]
      simp

/-! ### C6 -/

/-- C6: after the per-address remote untrust attempts, every selected
(expired) row is deleted from the store — under *every* remote channel,
including one whose untrust calls fail — in both the service sweep and
the scheduler job.  No selected row survives for a later retry. -/
theorem cleanup_deletes_selected_despite_failures
    (remote : String → Except FirewallError String)
    (jremote : SSHAccount → String → Except FirewallError String)
    (users : List User) (accounts : List SSHAccount)
    (db : List TrustedIP) (now : Nat) (r : TrustedIP)
    (hr : r ∈ db) (hexp : r.expires_at < now) :
    r ∉ (cleanup_expired_ips remote db now).2 ∧
      r ∉ (cleanup_expired_ips_job jremote users accounts db now).2 := by
  have hmem : r ∉ db.filter (fun x => !(x.expires_at < now)) := by
    intro hc
    have := (List.mem_filter.mp hc).2
    simp [hexp] at this
  constructor
  · simpa [cleanup_expired_ips] using hmem
  · have hne : (db.filter (fun x => x.expires_at < now)).isEmpty = false := by
      have hmem₂ : r ∈ db.filter (fun x => x.expires_at < now) :=
        List.mem_filter.mpr ⟨hr, by simp [hexp]⟩
      have hnil : db.filter (fun x => decide (x.expires_at < now)) ≠ [] :=
        List.ne_nil_of_mem hmem₂
      cases he : (db.filter (fun x => decide (x.expires_at < now))).isEmpty
      · rfl
      · exact absurd (List.isEmpty_iff.mp he) hnil
    simpa [cleanup_expired_ips_job, hne] using hmem

/-- Witness for `cleanup_deletes_selected_despite_failures`: a channel
that always raises still leaves the expired row deleted. -/
theorem cleanup_deletes_selected_despite_failures_witness :
    ({ id := 1, ip_address := "10.0.0.5", user_id := some 1,
       created_at := 0, expires_at := 100 } : TrustedIP) ∉
        (cleanup_expired_ips (fun _ => .error { msg := "host down" })
          [{ id := 1, ip_address := "10.0.0.5", user_id := some 1,
             created_at := 0, expires_at := 100 }] 101).2 ∧
      ({ id := 1, ip_address := "10.0.0.5", user_id := some 1,
         created_at := 0, expires_at := 100 } : TrustedIP) ∉
        (cleanup_expired_ips_job (fun _ _ => .error { msg := "host down" })
          [] []
          [{ id := 1, ip_address := "10.0.0.5", user_id := some 1,
             created_at := 0, expires_at := 100 }] 101).2 :=
  cleanup_deletes_selected_despite_failures
    (fun _ => .error { msg := "host down" })
    (fun _ _ => .error { msg := "host down" }) [] []
    [{ id := 1, ip_address := "10.0.0.5", user_id := some 1,
       created_at := 0, expires_at := 100 }] 101
    { id := 1, ip_address := "10.0.0.5", user_id := some 1,
      created_at := 0, expires_at := 100 }
    (by simp) (by decide)

/-! ### C7 -/

/-- C7: the sweep job processes its selection element-wise — for any
split of the expired selection into a first part `xs` and a rest `ys`,
the reported addresses are the independent per-row results of `xs`
followed by those of `ys`, so a failing remote call inside `xs` (its
`jobAttempt` is `none`) neither aborts nor alters the processing of
`ys`; and the job always returns (the store mutation happens and no
error escapes its boundary — the job is a total function, every
per-row exception being absorbed into `jobAttempt`). -/
theorem cleanup_job_batch_isolated
    (remote : SSHAccount → String → Except FirewallError String)
    (users : List User) (accounts : List SSHAccount)
    (db : List TrustedIP) (now : Nat) (xs ys : List TrustedIP)
    (hsplit : db.filter (fun r => r.expires_at < now) = xs ++ ys) :
    (cleanup_expired_ips_job remote users accounts db now).1 =
        xs.filterMap (jobAttempt remote users accounts) ++
          ys.filterMap (jobAttempt remote users accounts) ∧
      (cleanup_expired_ips_job remote users accounts db now).2 =
        db.filter (fun r => !(r.expires_at < now)) := by
  by_cases h : (db.filter (fun r => r.expires_at < now)).isEmpty = true
  · have hnil : db.filter (fun r => decide (r.expires_at < now)) = [] :=
      List.isEmpty_iff.mp h
    have hxs : xs = [] := by
      have := hsplit ▸ hnil
      exact List.append_eq_nil.mp this |>.1
    have hys : ys = [] := by
      have := hsplit ▸ hnil
      exact List.append_eq_nil.mp this |>.2
    have hall : ∀ r ∈ db, ¬ (decide (r.expires_at < now) = true) :=
      List.filter_eq_nil_iff.mp hnil
    have hself : db.filter (fun r => !(decide (r.expires_at < now))) = db :=
      List.filter_eq_self.mpr (fun r hr => by simp [Bool.of_not_eq_true (hall r hr)])
    refine ⟨?_, ?_⟩
    · simp [cleanup_expired_ips_job, h, hxs, hys]
    · simp [cleanup_expired_ips_job, h, hself]
  · refine ⟨?_, ?_⟩
    · simp only [cleanup_expired_ips_job, h, if_false]
      rw [hsplit, List.filterMap_append]
      simp
    · simp [cleanup_expired_ips_job, h]

/-- Witness for `cleanup_job_batch_isolated`: two expired rows owned by
two tenants; tenant `A`'s channel raises, tenant `B`'s succeeds.  The
split `[r₁] ++ [r₂]` shows `r₂` is still processed and the store still
swept. -/
theorem cleanup_job_batch_isolated_witness :
    (cleanup_expired_ips_job
        (fun acct _ => if acct.id == 10 then .error { msg := "host down" }
                       else .ok "Success")
        [{ id := 1, account_id := some 10 }, { id := 2, account_id := some 20 }]
        [{ id := 10, name := "A", host := "a", ssh_user := "root", ssh_key_path := "k" },
         { id := 20, name := "B", host := "b", ssh_user := "root", ssh_key_path := "k" }]
        [{ id := 1, ip_address := "1.1.1.1", user_id := some 1,
           created_at := 0, expires_at := 10 },
         { id := 2, ip_address := "2.2.2.2", user_id := some 2,
           created_at := 0, expires_at := 10 }] 11).1 =
      List.filterMap
        (jobAttempt
          (fun acct _ => if acct.id == 10 then .error { msg := "host down" }
                         else .ok "Success")
          [{ id := 1, account_id := some 10 }, { id := 2, account_id := some 20 }]
          [{ id := 10, name := "A", host := "a", ssh_user := "root", ssh_key_path := "k" },
           { id := 20, name := "B", host := "b", ssh_user := "root", ssh_key_path := "k" }])
        [{ id := 1, ip_address := "1.1.1.1", user_id := some 1,
           created_at := 0, expires_at := 10 }] ++
      List.filterMap
        (jobAttempt
          (fun acct _ => if acct.id == 10 then .error { msg := "host down" }
                         else .ok "Success")
          [{ id := 1, account_id := some 10 }, { id := 2, account_id := some 20 }]
          [{ id := 10, name := "A", host := "a", ssh_user := "root", ssh_key_path := "k" },
           { id := 20, name := "B", host := "b", ssh_user := "root", ssh_key_path := "k" }])
        [{ id := 2, ip_address := "2.2.2.2", user_id := some 2,
           created_at := 0, expires_at := 10 }] ∧
    (cleanup_expired_ips_job
        (fun acct _ => if acct.id == 10 then .error { msg := "host down" }
                       else .ok "Success")
        [{ id := 1, account_id := some 10 }, { id := 2, account_id := some 20 }]
        [{ id := 10, name := "A", host := "a", ssh_user := "root", ssh_key_path := "k" },
         { id := 20, name := "B", host := "b", ssh_user := "root", ssh_key_path := "k" }]
        [{ id := 1, ip_address := "1.1.1.1", user_id := some 1,
           created_at := 0, expires_at := 10 },
         { id := 2, ip_address := "2.2.2.2", user_id := some 2,
           created_at := 0, expires_at := 10 }] 11).2 =
      List.filter (fun r => !(r.expires_at < 11))
        [{ id := 1, ip_address := "1.1.1.1", user_id := some 1,
           created_at := 0, expires_at := 10 },
         { id := 2, ip_address := "2.2.2.2", user_id := some 2,
           created_at := 0, expires_at := 10 }] :=
  cleanup_job_batch_isolated
    (fun acct _ => if acct.id == 10 then .error { msg := "host down" }
                   else .ok "Success")
    [{ id := 1, account_id := some 10 }, { id := 2, account_id := some 20 }]
    [{ id := 10, name := "A", host := "a", ssh_user := "root", ssh_key_path := "k" },
     { id := 20, name := "B", host := "b", ssh_user := "root", ssh_key_path := "k" }]
    [{ id := 1, ip_address := "1.1.1.1", user_id := some 1,
       created_at := 0, expires_at := 10 },
     { id := 2, ip_address := "2.2.2.2", user_id := some 2,
       created_at := 0, expires_at := 10 }] 11
    [{ id := 1, ip_address := "1.1.1.1", user_id := some 1,
       created_at := 0, expires_at := 10 }]
    [{ id := 2, ip_address := "2.2.2.2", user_id := some 2,
       created_at := 0, expires_at := 10 }]
    (by rfl)

/-! ### C4 -/

/-- C4, as stated, is false: the string
`"10.0.0.5; touch /tmp/pwned"` matches no strict address syntax (it
fails the §6/§9 numeric grammar), yet `trust_ip` places it verbatim
into the command string handed to the channel, as the recording channel
observes. -/
theorem unvalidated_address_reaches_channel_cex :
    strictAddressSyntax "10.0.0.5; touch /tmp/pwned" = false ∧
      trust_ip recordingChannel "10.0.0.5; touch /tmp/pwned" [] none 0 1 =
        (.error { msg := "fwconsole firewall trust 10.0.0.5; touch /tmp/pwned" },
         []) :=
  ⟨by decide, rfl⟩

/-- C4 (amended): no validation is performed anywhere on the path: for
*every* address string — matching the strict syntax or not — `trust_ip`
and `untrust_ip` interpolate it verbatim into the command string sent
over the channel. -/
theorem trust_untrust_interpolate_verbatim (ip : String)
    (db : List TrustedIP) (uid : Option Nat) (now nid : Nat) :
    trust_ip recordingChannel ip db uid now nid =
        (.error { msg := "fwconsole firewall trust " ++ ip }, db) ∧
      untrust_ip recordingChannel ip (some db) =
        (.error { msg := "fwconsole firewall untrust " ++ ip }, some db) := by
  exact ⟨rfl, rfl⟩

/-! ### C5 -/

/-- C5, as stated, is false: with a remote channel whose untrust
command runs but does not report success, `untrust_ip` returns `False`
and the local row for the address is *not* deleted — the deletion is
conditional on remote success, not unconditional. -/
theorem untrust_remote_failure_keeps_row_cex :
    untrust_ip (fun _ => .ok "rule was not removed") "10.0.0.5"
        (some [{ id := 1, ip_address := "10.0.0.5", user_id := none,
                 created_at := 0, expires_at := 100 }]) =
      (.ok false,
       some [{ id := 1, ip_address := "10.0.0.5", user_id := none,
               created_at := 0, expires_at := 100 }]) ∧
      containsSubstr "rule was not removed" "Success" = false :=
  ⟨rfl, by decide⟩

/-- C5 (amended): `untrust_ip` deletes the local rows for the address
only when the remote untrust reports success; when the command runs
without the success marker it returns `False` with the store unchanged,
and when the channel fails the error propagates with the store
unchanged.  For an address with no local row, a successful revoke is a
no-op that succeeds without error. -/
theorem untrust_ip_deletes_only_on_success
    (remote : String → Except FirewallError String)
    (ip : String) (rows : List TrustedIP) :
    (∀ out, remote (untrustCommand ip) = .ok out →
        containsSubstr out "Success" = true →
        untrust_ip remote ip (some rows) =
          (.ok true, some (rows.filter (fun r => !(r.ip_address == ip))))) ∧
      (∀ out, remote (untrustCommand ip) = .ok out →
        containsSubstr out "Success" = false →
        untrust_ip remote ip (some rows) = (.ok false, some rows)) ∧
      (∀ e, remote (untrustCommand ip) = .error e →
        untrust_ip remote ip (some rows) = (.error e, some rows)) ∧
      (∀ out, remote (untrustCommand ip) = .ok out →
        containsSubstr out "Success" = true →
        (∀ r ∈ rows, (r.ip_address == ip) = false) →
        untrust_ip remote ip (some rows) = (.ok true, some rows)) := by
  refine ⟨?_, ?_, ?_, ?_⟩
  · intro out hout hs
    simp [untrust_ip, hout, hs]
  · intro out hout hs
    simp [untrust_ip, hout, hs]
  · intro e he
    simp [untrust_ip, he]
  · intro out hout hs hnone
    have hid : rows.filter (fun r => !(r.ip_address == ip)) = rows :=
      List.filter_eq_self.mpr (fun r hr => by simp [hnone r hr])
    simp [untrust_ip, hout, hs, hid]

/-- Witness for `untrust_ip_deletes_only_on_success`: a successful
revoke of an address with no local row is a no-op, and a channel
failure propagates with the store unchanged. -/
theorem untrust_ip_deletes_only_on_success_witness :
    untrust_ip (fun _ => .ok "Success") "10.0.0.5"
        (some [{ id := 7, ip_address := "172.16.0.1", user_id := none,
                 created_at := 0, expires_at := 100 }]) =
      (.ok true,
       some [{ id := 7, ip_address := "172.16.0.1", user_id := none,
               created_at := 0, expires_at := 100 }]) ∧
      untrust_ip (fun _ => .error { msg := "SSH error: timeout" }) "10.0.0.5"
        (some []) = (.error { msg := "SSH error: timeout" }, some []) :=
  ⟨(untrust_ip_deletes_only_on_success (fun _ => .ok "Success") "10.0.0.5"
      [{ id := 7, ip_address := "172.16.0.1", user_id := none,
         created_at := 0, expires_at := 100 }]).2.2.2
    "Success" rfl (by decide) (by decide),
   (untrust_ip_deletes_only_on_success
      (fun _ => .error { msg := "SSH error: timeout" }) "10.0.0.5" []).2.2.1
    { msg := "SSH error: timeout" } rfl⟩

/-! ### C8 -/

/-- C8: writes through `_save_trusted_ip` preserve the row invariant
`expires_at > created_at` (for every row already satisfying it and
written no later than `now`), and a row created for a previously absent
address has `expires_at = created_at + TTL` with `TTL` the configured
2 hours. -/
theorem save_preserves_expiry_invariant
    (db : List TrustedIP) (ip : String) (uid : Option Nat) (now newId : Nat)
    (hinv : ∀ r ∈ db, r.created_at ≤ now ∧ r.created_at < r.expires_at) :
    (∀ r ∈ save_trusted_ip db ip uid now newId,
        r.created_at ≤ now ∧ r.created_at < r.expires_at) ∧
      (db.find? (fun r => r.ip_address == ip) = none →
        ∃ r, save_trusted_ip db ip uid now newId = db ++ [r] ∧
          r.created_at = now ∧
          r.expires_at = r.created_at + IP_EXPIRATION_HOURS * 3600) := by
  have hts : now < calculate_expiry IP_EXPIRATION_HOURS now :=
    Nat.lt_add_of_pos_right (by decide)
  constructor
  · intro r hr
    unfold save_trusted_ip at hr
    cases hfind : db.find? (fun x => x.ip_address == ip) with
    | none =>
        rw [hfind] at hr
        rcases List.mem_append.mp hr with h | h
        · exact hinv r h
        · have : r = { id := newId, ip_address := ip, user_id := uid,
                       created_at := now,
                       expires_at := calculate_expiry IP_EXPIRATION_HOURS now } := by
            simpa using h
          subst this
          exact ⟨Nat.le_refl now, hts⟩
    | some x =>
        rw [hfind] at hr
        rcases mem_updateFirst _ _ db r hr with h | ⟨y, hy, hry⟩
        · exact hinv r h
        · subst hry
          refine ⟨(hinv y hy).1, ?_⟩
          exact Nat.lt_of_le_of_lt (hinv y hy).1 hts
  · intro hfind
    exact ⟨_, save_trusted_ip_not_found db ip uid now newId hfind, rfl, rfl⟩

/-- Witness for `save_preserves_expiry_invariant`: inserting
`10.0.0.5` at `now = 1000` into a store holding one healthy row. -/
theorem save_preserves_expiry_invariant_witness :
    (∀ r ∈ save_trusted_ip
        [{ id := 1, ip_address := "9.9.9.9", user_id := none,
           created_at := 500, expires_at := 7700 }] "10.0.0.5" none 1000 2,
        r.created_at ≤ 1000 ∧ r.created_at < r.expires_at) ∧
      ([{ id := 1, ip_address := "9.9.9.9", user_id := none,
          created_at := 500, expires_at := 7700 }].find?
            (fun r : TrustedIP => r.ip_address == "10.0.0.5") = none →
        ∃ r, save_trusted_ip
            [{ id := 1, ip_address := "9.9.9.9", user_id := none,
               created_at := 500, expires_at := 7700 }] "10.0.0.5" none 1000 2 =
            [{ id := 1, ip_address := "9.9.9.9", user_id := none,
               created_at := 500, expires_at := 7700 }] ++ [r] ∧
          r.created_at = 1000 ∧
          r.expires_at = r.created_at + IP_EXPIRATION_HOURS * 3600) :=
  save_preserves_expiry_invariant
    [{ id := 1, ip_address := "9.9.9.9", user_id := none,
       created_at := 500, expires_at := 7700 }] "10.0.0.5" none 1000 2
    (by intro r hr; simp at hr; subst hr; exact ⟨by decide, by decide⟩)

/-! ### C9 -/

/-- C9: with valid admin credentials and an existing account, the
deletion is refused with a 400 error — and the `ssh_accounts` table
left unchanged — while any user still references the account, and it
succeeds with the account removed exactly when no user references
it. -/
theorem delete_account_refused_while_referenced
    (users : List User) (accounts : List SSHAccount) (aid : Nat)
    (acct : SSHAccount)
    (hfind : accounts.find? (fun a => a.id == aid) = some acct) :
    ((∃ u ∈ users, u.account_id = some aid) →
        (delete_account true users accounts aid).2 = accounts ∧
          ∃ e, (delete_account true users accounts aid).1 = .error e ∧
            e.status_code = 400) ∧
      ((∀ u ∈ users, u.account_id ≠ some aid) →
        (delete_account true users accounts aid).1 =
            .ok ("Account deleted: " ++ acct.name) ∧
          (delete_account true users accounts aid).2 =
            accounts.filter (fun a => !(a.id == acct.id))) := by
  constructor
  · rintro ⟨u, hu, hua⟩
    have hmem : u ∈ users.filter (fun v => v.account_id == some aid) :=
      List.mem_filter.mpr ⟨hu, by simp [hua]⟩
    have hcount :
        (users.filter (fun v => v.account_id == some aid)).length > 0 :=
      List.length_pos.mpr (List.ne_nil_of_mem hmem)
    refine ⟨?_, { status_code := 400,
                  detail := "Cannot delete: user(s) are using this account" },
            ?_, rfl⟩ <;>
      simp [delete_account, hfind, hcount]
  · intro hnone
    have hnil : users.filter (fun v => v.account_id == some aid) = [] :=
      List.filter_eq_nil_iff.mpr (fun u hu => by
        simp only [beq_iff_eq]
        exact fun hc => hnone u hu hc)
    constructor <;> simp [delete_account, hfind, hnil]

/-- Witness for `delete_account_refused_while_referenced`: one user
referencing account `5` blocks its deletion; with no referencing user
the account is removed. -/
theorem delete_account_refused_while_referenced_witness :
    ((∃ u ∈ [({ id := 1, account_id := some 5 } : User)],
        u.account_id = some 5) →
      (delete_account true [{ id := 1, account_id := some 5 }]
          [{ id := 5, name := "prod", host := "h", ssh_user := "root",
             ssh_key_path := "k" }] 5).2 =
        [{ id := 5, name := "prod", host := "h", ssh_user := "root",
           ssh_key_path := "k" }] ∧
        ∃ e, (delete_account true [{ id := 1, account_id := some 5 }]
            [{ id := 5, name := "prod", host := "h", ssh_user := "root",
               ssh_key_path := "k" }] 5).1 = .error e ∧
          e.status_code = 400) ∧
      ((∀ u ∈ [({ id := 1, account_id := some 5 } : User)],
          u.account_id ≠ some 5) →
        (delete_account true [{ id := 1, account_id := some 5 }]
            [{ id := 5, name := "prod", host := "h", ssh_user := "root",
               ssh_key_path := "k" }] 5).1 = .ok ("Account deleted: " ++ "prod") ∧
          (delete_account true [{ id := 1, account_id := some 5 }]
              [{ id := 5, name := "prod", host := "h", ssh_user := "root",
                 ssh_key_path := "k" }] 5).2 =
            [{ id := 5, name := "prod", host := "h", ssh_user := "root",
               ssh_key_path := "k" }].filter (fun a => !(a.id == 5))) :=
  delete_account_refused_while_referenced
    [{ id := 1, account_id := some 5 }]
    [{ id := 5, name := "prod", host := "h", ssh_user := "root",
       ssh_key_path := "k" }] 5
    { id := 5, name := "prod", host := "h", ssh_user := "root",
      ssh_key_path := "k" } rfl

/-! ### C10 -/

/-- C10: `is_ip_trusted` never propagates an error: when the live
listing fails with any `FirewallError` it returns `False`, and when
the listing succeeds it returns `True` exactly when the listing
contains the address itself or the address suffixed `"/32"`. -/
theorem is_ip_trusted_never_propagates
    (remote : String → Except FirewallError String) (ip : String) :
    (∀ e, list_trusted remote = .error e → is_ip_trusted remote ip = false) ∧
      (∀ l, list_trusted remote = .ok l →
        (is_ip_trusted remote ip = true ↔ ip ∈ l ∨ ip ++ "/32" ∈ l)) := by
  constructor
  · intro e he
    simp [is_ip_trusted, he]
  · intro l hl
    simp [is_ip_trusted, hl, List.contains, List.elem_iff]

/-- Witness for `is_ip_trusted_never_propagates`: a failing channel
yields `False`; a concrete listing decides membership (the `/32`
suffix form). -/
theorem is_ip_trusted_never_propagates_witness :
    is_ip_trusted (fun _ => .error { msg := "boom" }) "10.0.0.5" = false ∧
      (is_ip_trusted (fun _ => .ok "header\n10.0.0.5/32\n172.16.0.1")
          "10.0.0.5" = true ↔
        "10.0.0.5" ∈ ["10.0.0.5/32", "172.16.0.1"] ∨
          "10.0.0.5" ++ "/32" ∈ ["10.0.0.5/32", "172.16.0.1"]) :=
  ⟨(is_ip_trusted_never_propagates (fun _ => .error { msg := "boom" })
      "10.0.0.5").1 { msg := "Failed to list trusted IPs: boom" } rfl,
   (is_ip_trusted_never_propagates
      (fun _ => .ok "header\n10.0.0.5/32\n172.16.0.1") "10.0.0.5").2
     ["10.0.0.5/32", "172.16.0.1"] rfl⟩

end VoipFw
